import Mathlib

/-!
Shallow embedding of the order/cart/checkout core of an e-commerce HTTP API
backed by a transactional document store.

The embedding models:
* the document collections (`Customer`, `Product`, `Order`, `OrderItem`)
  declared in the schema, as a `Store` of id-keyed association lists;
* the server-side user-defined functions `validateOrderStatusTransition`,
  `getOrCreateCart`, `createOrUpdateCartItem` and `checkout`, statement by
  statement — `checkoutRaw` threads the store through every write and
  reports an abort message, so that "no write happens before an abort"
  is a provable property rather than one baked into the encoding;
* the computed fields `Customer.cart` (first order of the customer in
  status "cart") and `Order.total` (fold over the order's items);
* the HTTP-side request validation (`validateOrderItem`,
  `validateOrderUpdate`) and the PATCH /orders/:id controller
  (`patchOrder`), including the JavaScript destructuring default
  `payment = \x7b\x7d` that the controller applies to the request body.
-/

namespace ECommerce

/-- Free-form payment blob (schema type `\x7b *: Any \x7d`), modelled as a list of
key/value fields; the empty blob `\x7b\x7d` is `[]`.  A document field that may be
`null` is modelled as an `Option`. -/
abbrev Payment := List (String × String)

/-- Shipping address of a customer (all five fields of the schema). -/
structure Address where
  street : String
  city : String
  state : String
  postalCode : String
  country : String
deriving Repr, DecidableEq

/-- A `Customer` document.  The schema declares `address` as a required field,
but the checkout function still checks it against `null`, so it is modelled
as an `Option`. -/
structure Customer where
  name : String
  email : String
  address : Option Address
deriving Repr, DecidableEq

/-- A `Product` document; `price` is an integer amount of cents and
`category` a reference (id) to a `Category` document. -/
structure Product where
  name : String
  description : String
  price : Int
  category : Nat
  stock : Int
deriving Repr, DecidableEq

/-- An `Order` document.  `status` is one of "cart", "processing",
"shipped", "delivered"; it is kept as a `String` because the
user-defined functions compare it against string literals. -/
structure Order where
  customer : Nat
  status : String
  createdAt : Int
  payment : Option Payment
deriving Repr, DecidableEq

/-- An `OrderItem` document: one line item of an order. -/
structure OrderItem where
  order : Nat
  product : Nat
  quantity : Int
deriving Repr, DecidableEq

/-- The document store: each collection is an association list from
document id to document.  `nextId` supplies fresh ids for `create`. -/
structure Store where
  customers : List (Nat × Customer)
  products : List (Nat × Product)
  orders : List (Nat × Order)
  orderItems : List (Nat × OrderItem)
  nextId : Nat
deriving Repr, DecidableEq

/-- `Customer.byId`. -/
def Store.customerById (s : Store) (id : Nat) : Option Customer :=
  (s.customers.find? (fun e => e.1 == id)).map (·.2)

/-- `Product.byId` (dereferencing an `OrderItem.product` reference). -/
def Store.productById (s : Store) (id : Nat) : Option Product :=
  (s.products.find? (fun e => e.1 == id)).map (·.2)

/-- `Order.byId`. -/
def Store.orderById (s : Store) (id : Nat) : Option Order :=
  (s.orders.find? (fun e => e.1 == id)).map (·.2)

/-- `Product.byName(name).first()` — the index has a unique constraint on
`[.name]`, so the first hit is the only hit. -/
def Store.productByName (s : Store) (name : String) : Option (Nat × Product) :=
  s.products.find? (fun e => e.2.name == name)

/-- The computed field `Customer.cart`:
`Order.byCustomerAndStatus(customer, "cart").first()`, returned as the id
of that order. -/
def Store.cartOf (s : Store) (cid : Nat) : Option Nat :=
  (s.orders.find? (fun e => e.2.customer == cid && e.2.status == "cart")).map (·.1)

/-- The computed field `Order.items`: `OrderItem.byOrder(order)`. -/
def Store.itemsOf (s : Store) (oid : Nat) : List OrderItem :=
  (s.orderItems.filter (fun e => e.2.order == oid)).map (·.2)

/-- `OrderItem.byOrderAndProduct(order, product).first()` — unique
constraint on `[.order, .product]`. -/
def Store.itemByOrderAndProduct (s : Store) (oid pid : Nat) : Option (Nat × OrderItem) :=
  s.orderItems.find? (fun e => e.2.order == oid && e.2.product == pid)

/-- `Order.create` with a fresh id; returns the new store and the id. -/
def Store.createOrder (s : Store) (o : Order) : Store × Nat :=
  ({ s with orders := s.orders ++ [(s.nextId, o)], nextId := s.nextId + 1 }, s.nextId)

/-- `OrderItem.create` with a fresh id; returns the new store and the id. -/
def Store.createOrderItem (s : Store) (it : OrderItem) : Store × Nat :=
  ({ s with orderItems := s.orderItems ++ [(s.nextId, it)], nextId := s.nextId + 1 }, s.nextId)

/-- `orderItem.update(\x7b quantity: q \x7d)` on the order item with id `iid`. -/
def Store.updateItemQuantity (s : Store) (iid : Nat) (q : Int) : Store :=
  { s with orderItems :=
      s.orderItems.map (fun e => if e.1 == iid then (e.1, { e.2 with quantity := q }) else e) }

/-- `product.update(\x7b stock: v \x7d)` on the product with id `pid`. -/
def Store.updateProductStock (s : Store) (pid : Nat) (v : Int) : Store :=
  { s with products :=
      s.products.map (fun e => if e.1 == pid then (e.1, { e.2 with stock := v }) else e) }

/-- `order.update(...)` on the order with id `oid`, applying `f` to the
document. -/
def Store.updateOrderDoc (s : Store) (oid : Nat) (f : Order → Order) : Store :=
  { s with orders := s.orders.map (fun e => if e.1 == oid then (e.1, f e.2) else e) }

/-- The stock of a product as stored, `none` when the product does not
exist. -/
def Store.stockOf (s : Store) (pid : Nat) : Option Int :=
  (s.productById pid).map (·.stock)

/-- The user-defined function `validateOrderStatusTransition(oldStatus,
newStatus)`: it aborts with "Invalid status transition." when the first
matching guard fires, and succeeds otherwise.  Note the three guards
cover old statuses "cart", "processing" and "shipped" only: there is no
guard whose old status is "delivered". -/
def validateOrderStatusTransition (oldStatus newStatus : String) : Except String Unit :=
  if oldStatus == "cart" && newStatus != "processing" then
    .error "Invalid status transition."
  else if oldStatus == "processing" && newStatus != "shipped" then
    .error "Invalid status transition."
  else if oldStatus == "shipped" && newStatus != "delivered" then
    .error "Invalid status transition."
  else
    .ok ()

/-- The user-defined function `getOrCreateCart(id)`: looks the customer up
(`document_not_found` when absent), creates a cart order (status "cart",
empty payment blob, `createdAt` = now) when the computed `cart` field is
null, and returns the customer's cart. -/
def getOrCreateCart (s : Store) (id : Nat) (now : Int) : Except String (Store × Nat) :=
  match s.customerById id with
  | none => .error "document_not_found"
  | some _ =>
    match s.cartOf id with
    | none =>
      let created := s.createOrder { customer := id, status := "cart", createdAt := now, payment := some [] }
      .ok (created.1, created.2)
    | some oid => .ok (s, oid)

/-- The user-defined function `createOrUpdateCartItem(customerId,
productName, quantity)`, statement by statement: resolve the customer
(`document_not_found` when absent) and the product by name; abort when the
product is missing, the quantity negative, or the stock short; create the
customer's cart order when the computed `cart` field is null; then create
the (cart, product) order item or overwrite its quantity.  Returns the
customer's cart.  The `cartOf` re-reads model the computed field being
evaluated on the current state of the transaction; the unreachable
`none` branch after cart creation mirrors the null dereference
`customer!.cart!.id` the source would hit there. -/
def createOrUpdateCartItem (s : Store) (customerId : Nat) (productName : String)
    (quantity : Int) (now : Int) : Except String (Store × Nat) :=
  match s.customerById customerId with
  | none => .error "document_not_found"
  | some _ =>
    match s.productByName productName with
    | none => .error "Product does not exist."
    | some (pid, product) =>
      if quantity < 0 then .error "Quantity must be a non-negative integer."
      else
        let s1 :=
          if (s.cartOf customerId).isNone then
            (s.createOrder { customer := customerId, status := "cart", createdAt := now, payment := some [] }).1
          else s
        if product.stock < quantity then
          .error "Product does not have the requested quantity in stock."
        else
          match s1.cartOf customerId with
          | none => .error "document_not_found"
          | some cartId =>
            match s1.itemByOrderAndProduct cartId pid with
            | none =>
              .ok ((s1.createOrderItem { order := cartId, product := pid, quantity := quantity }).1, cartId)
            | some (iid, _) => .ok (s1.updateItemQuantity iid quantity, cartId)

/-- The result of checking one line item against current stock during
checkout (`if (product.stock < item.quantity) abort(...)`); a dangling
product reference surfaces as the document-not-found error the field
access on a missing document raises. -/
def stockViolation (s : Store) (it : OrderItem) : Option String :=
  match s.productById it.product with
  | none => some "document_not_found"
  | some p =>
    if p.stock < it.quantity then
      some "One of the selected products does not have the requested quantity in stock."
    else none

/-- The first abort the stock-check `forEach` loop of checkout raises, or
`none` when every line item is still in stock. -/
def firstStockViolation (s : Store) (items : List OrderItem) : Option String :=
  match items with
  | [] => none
  | it :: rest =>
    match stockViolation s it with
    | some e => some e
    | none => firstStockViolation s rest

/-- The stock-decrement `forEach` loop of checkout: for each line item the
referenced product is re-read and updated to `product.stock -
item.quantity`.  (The loop runs only after the stock-check loop
succeeded, so every product it touches exists.) -/
def decrementStock (s : Store) (items : List OrderItem) : Store :=
  items.foldl
    (fun acc it =>
      match acc.productById it.product with
      | some p => acc.updateProductStock it.product (p.stock - it.quantity)
      | none => acc)
    s

/-- The user-defined function `checkout(orderId, status, payment)`,
executed statement by statement WITHOUT transactional rollback: the
result is the store as mutated up to the point the function finished or
aborted, together with the abort message if any.  Proving that an
aborting run returns the store unchanged is exactly the code-level half
of the atomicity guarantee (all aborts precede all writes); the storage
engine's rollback supplies the rest. -/
def checkoutRaw (s : Store) (orderId : Nat) (status : String) (payment : Option Payment) :
    Store × Option String :=
  match s.orderById orderId with
  | none => (s, some "document_not_found")
  | some order =>
    if status != "processing" then
      (s, some "Can not call checkout with status other than processing.")
    else
      match validateOrderStatusTransition order.status "processing" with
      | .error e => (s, some e)
      | .ok () =>
        if (s.itemsOf orderId).isEmpty then
          (s, some "Order must have at least one item.")
        else
          match s.customerById order.customer with
          | none => (s, some "document_not_found")
          | some customer =>
            if customer.address.isNone then
              (s, some "Customer must have a valid address.")
            else if order.payment.isNone && payment.isNone then
              (s, some "Order must have a valid payment method.")
            else
              match firstStockViolation s (s.itemsOf orderId) with
              | some e => (s, some e)
              | none =>
                let s2 := decrementStock s (s.itemsOf orderId)
                match payment with
                | some p =>
                  (s2.updateOrderDoc orderId (fun o => { o with status := "processing", payment := some p }), none)
                | none =>
                  (s2.updateOrderDoc orderId (fun o => { o with status := "processing" }), none)

/-- The `checkout` transaction as observed through the storage engine's
atomic commit: a successful run commits the final store, an aborting run
rolls the whole transaction back. -/
def checkout (s : Store) (orderId : Nat) (status : String) (payment : Option Payment) :
    Except String Store :=
  match checkoutRaw s orderId status payment with
  | (s', none) => .ok s'
  | (_, some e) => .error e

/-- The computed field `Order.total`: fold over the order's items adding
`product.price * quantity` for each item whose product reference
resolves, and skipping (adding nothing for) items whose product is null. -/
def Store.orderTotal (s : Store) (oid : Nat) : Int :=
  (s.itemsOf oid).foldl
    (fun sum it =>
      match s.productById it.product with
      | some p => sum + p.price * it.quantity
      | none => sum)
    0

/-- The four members of the `OrderStatus` enum of the HTTP layer. -/
def orderStatuses : List String := ["cart", "processing", "shipped", "delivered"]

/-- The Express middleware `validateOrderItem` on the body of
`POST /customers/:id/cart/item`: `\x7bproductName, quantity\x7d` with JavaScript
truthiness.  `!productName` is true for a missing field and for the empty
string; `!quantity || isNaN(quantity) || quantity <= 0` is true for a
missing field, for `0` (falsy) and for every non-positive number.
Returns the 400 message, or `none` when the request passes. -/
def validateOrderItem (productName : Option String) (quantity : Option Int) : Option String :=
  match productName with
  | none => some "Product must be a non empty string."
  | some n =>
    if n == "" then some "Product must be a non empty string."
    else
      match quantity with
      | none => some "Quantity must be a positive integer."
      | some q =>
        if q ≤ 0 then some "Quantity must be a positive integer."
        else none

/-- The Express middleware `validateOrderUpdate` on the body of
`PATCH /orders/:id`: rejects a status outside the enum, and rejects a
payment update on an order whose target status is not "cart" when a
payment field IS present in the body.  Returns the 400 message, or `none`
when the request passes. -/
def validateOrderUpdate (status : Option String) (payment : Option Payment) : Option String :=
  if (match status with
      | some st => st != "" && !(orderStatuses.contains st)
      | none => false) then
    some "Status must be one of \x27cart\x27, \x27processing\x27, \x27shipped\x27, or \x27delivered\x27."
  else if status.isSome && payment.isSome && status != some "cart" then
    some "Payment method may only be updated before the order has been placed."
  else none

/-- An HTTP response of the PATCH /orders/:id handler: a 200 carrying the
committed store, or an error status code with a message. -/
inductive PatchResult where
  | ok (s : Store)
  | err (code : Nat) (msg : String)
deriving Repr, DecidableEq

/-- The PATCH /orders/:id route: `validateOrderUpdate` middleware, then
the controller.  The controller destructures the body as
`const \x7b status, payment = \x7b\x7d \x7d = req.body`, so in the FQL template the
interpolated JavaScript value `payment !== undefined` is ALWAYS true —
the defaulted `payment` is `\x7b\x7d`, never `undefined`.  When
`status === "processing"` the controller calls the checkout UDF with the
defaulted payment; otherwise it runs the generic query: validate the
status transition when a status was sent, abort when the order is not in
"cart" (the payment-presence conjunct being constant true), else update
the order.  An abort maps to 400 with the abort message and a missing
document to 404, as in the controller's catch blocks. -/
def patchOrder (s : Store) (oid : Nat) (status : Option String) (payment : Option Payment) :
    PatchResult :=
  match validateOrderUpdate status payment with
  | some msg => .err 400 msg
  | none =>
    let pay : Payment := payment.getD []
    if status == some "processing" then
      match checkoutRaw s oid "processing" (some pay) with
      | (s', none) => .ok s'
      | (_, some e) =>
        if e == "document_not_found" then
          .err 404 ("No order with id \x27" ++ toString oid ++ "\x27 exists.")
        else .err 400 e
    else
      match s.orderById oid with
      | none => .err 404 ("No order with id \x27" ++ toString oid ++ "\x27 exists.")
      | some order =>
        match (match status with
               | some st => validateOrderStatusTransition order.status st
               | none => .ok ()) with
        | .error e => .err 400 e
        | .ok () =>
          if order.status != "cart" then
            .err 400 "Can not update payment information after an order has been placed."
          else
            .ok (s.updateOrderDoc oid (fun o =>
              { o with status := (status.getD o.status), payment := some pay }))

/-- The quantity of product `pid` ordered across a list of line items:
the per-product sum of quantities. -/
def orderedQty (items : List OrderItem) (pid : Nat) : Int :=
  ((items.filter (fun it => it.product == pid)).map (fun it => it.quantity)).sum

/-- The orders of customer `cid` in "cart" status, as
`Order.byCustomerAndStatus(customer, "cart")` enumerates them. -/
def Store.cartOrdersOf (s : Store) (cid : Nat) : List (Nat × Order) :=
  s.orders.filter (fun e => e.2.customer == cid && e.2.status == "cart")

/-- The check constraint `oneOrderInCart`:
`Order.byCustomerAndStatus(order.customer, "cart").count() <= 1` for
every customer. -/
def oneOrderInCart (s : Store) : Prop :=
  ∀ cid, (s.cartOrdersOf cid).length ≤ 1

/-- The customers of the cart-status orders, in store order; this list
being duplicate-free is an equivalent, decidable phrasing of the
`oneOrderInCart` check constraint. -/
def Store.cartCustomers (s : Store) : List Nat :=
  (s.orders.filter (fun e => e.2.status == "cart")).map (fun e => e.2.customer)

/-- Well-formedness the storage engine guarantees for the `OrderItem`
collection: document ids are unique and below the fresh-id counter,
order references point below the fresh-id counter, and the unique
constraint `unique [.order, .product]` holds. -/
def Store.WF (s : Store) : Prop :=
  (s.orderItems.map (·.1)).Nodup ∧
  (∀ e ∈ s.orderItems, e.1 < s.nextId) ∧
  (∀ e ∈ s.orderItems, e.2.order < s.nextId) ∧
  (s.orderItems.map (fun e => (e.2.order, e.2.product))).Nodup

/-- The contribution of one line item to the computed order total:
current product price times quantity, a dangling product reference
counting as price 0. -/
def itemContribution (s : Store) (it : OrderItem) : Int :=
  ((s.productById it.product).map (fun p => p.price)).getD 0 * it.quantity

/-- A shipping address used by the concrete stores below. -/
def demoAddress : Address :=
  { street := "1 Main St", city := "Springfield", state := "IL",
    postalCode := "62701", country := "US" }

/-- A store with one customer (id 1, with address), two products —
ProductA (id 2, price 500 cents, stock 10) and ProductB (id 3, price
1000 cents, stock 5) — one cart order (id 4) of the customer, and its
two line items: 2 × ProductA (id 5) and 1 × ProductB (id 6). -/
def demoStore : Store :=
  { customers := [(1, { name := "Alice", email := "alice@example.com", address := some demoAddress })],
    products :=
      [(2, { name := "ProductA", description := "first", price := 500, category := 0, stock := 10 }),
       (3, { name := "ProductB", description := "second", price := 1000, category := 0, stock := 5 })],
    orders := [(4, { customer := 1, status := "cart", createdAt := 0, payment := some [] })],
    orderItems :=
      [(5, { order := 4, product := 2, quantity := 2 }),
       (6, { order := 4, product := 3, quantity := 1 })],
    nextId := 7 }

/-- `demoStore` after a successful `checkout(4, "processing",
\x7b method: "card" \x7d)`: both stocks decremented, the order in "processing"
with the supplied payment blob. -/
def demoStoreCheckedOut : Store :=
  { customers := [(1, { name := "Alice", email := "alice@example.com", address := some demoAddress })],
    products :=
      [(2, { name := "ProductA", description := "first", price := 500, category := 0, stock := 8 }),
       (3, { name := "ProductB", description := "second", price := 1000, category := 0, stock := 4 })],
    orders := [(4, { customer := 1, status := "processing", createdAt := 0, payment := some [("method", "card")] })],
    orderItems :=
      [(5, { order := 4, product := 2, quantity := 2 }),
       (6, { order := 4, product := 3, quantity := 1 })],
    nextId := 7 }

/-- A store whose only order (id 4) is an empty cart: its checkout must
abort on the no-items precondition. -/
def emptyCartStore : Store :=
  { customers := [(1, { name := "Alice", email := "alice@example.com", address := some demoAddress })],
    products := [],
    orders := [(4, { customer := 1, status := "cart", createdAt := 0, payment := some [] })],
    orderItems := [],
    nextId := 7 }

/-- A store whose only order (id 4) has already been placed: it is in
"processing" status with a stored payment method. -/
def processingStore : Store :=
  { customers := [(1, { name := "Alice", email := "alice@example.com", address := some demoAddress })],
    products := [],
    orders := [(4, { customer := 1, status := "processing", createdAt := 0, payment := some [("method", "card")] })],
    orderItems := [],
    nextId := 7 }

/-! Theorems.  Helper lemmas come first, then one theorem per claim with
its witness where the statement carries a hypothesis. -/

theorem foldl_orderTotal_eq (s : Store) (l : List OrderItem) (a : Int) :
    (l.foldl
      (fun sum it =>
        match s.productById it.product with
        | some p => sum + p.price * it.quantity
        | none => sum)
      a)
    = a + (l.map (itemContribution s)).sum := by
  induction l generalizing a with
  | nil => simp
  | cons it rest ih =>
    cases hp : s.productById it.product with
    | none =>
      simp only [List.foldl_cons, hp, ih, List.map_cons, List.sum_cons]
      unfold itemContribution
      rw [hp]
      simp
    | some p =>
      simp only [List.foldl_cons, hp, ih, List.map_cons, List.sum_cons]
      unfold itemContribution
      rw [hp]
      simp only [Option.map_some', Option.getD_some]
      ring

theorem sum_itemContribution_filter (s : Store) (l : List OrderItem) :
    ((l.filter (fun it => (s.productById it.product).isSome)).map (itemContribution s)).sum
      = (l.map (itemContribution s)).sum := by
  induction l with
  | nil => rfl
  | cons it rest ih =>
    cases hp : s.productById it.product with
    | none =>
      have hc : itemContribution s it = 0 := by
        unfold itemContribution
        rw [hp]
        simp
      simp [List.filter_cons, hp, ih, hc]
    | some p =>
      simp [List.filter_cons, hp, ih]

/-- C1 (code bug): over the 4×4 status pairs,
`validateOrderStatusTransition` succeeds on the three forward pairs and
fails with "Invalid status transition." on the nine remaining pairs
whose old status is "cart", "processing" or "shipped" — but contrary to
the claim it also SUCCEEDS on all four pairs whose old status is
"delivered": the guard chain has no clause for "delivered", so the
supposedly terminal status admits every outgoing transition, identity
and backward ones included. -/
theorem validateOrderStatusTransition_table :
    (validateOrderStatusTransition "cart" "processing" = .ok () ∧
     validateOrderStatusTransition "processing" "shipped" = .ok () ∧
     validateOrderStatusTransition "shipped" "delivered" = .ok ()) ∧
    (validateOrderStatusTransition "cart" "cart" = .error "Invalid status transition." ∧
     validateOrderStatusTransition "cart" "shipped" = .error "Invalid status transition." ∧
     validateOrderStatusTransition "cart" "delivered" = .error "Invalid status transition." ∧
     validateOrderStatusTransition "processing" "cart" = .error "Invalid status transition." ∧
     validateOrderStatusTransition "processing" "processing" = .error "Invalid status transition." ∧
     validateOrderStatusTransition "processing" "delivered" = .error "Invalid status transition." ∧
     validateOrderStatusTransition "shipped" "cart" = .error "Invalid status transition." ∧
     validateOrderStatusTransition "shipped" "processing" = .error "Invalid status transition." ∧
     validateOrderStatusTransition "shipped" "shipped" = .error "Invalid status transition.") ∧
    (validateOrderStatusTransition "delivered" "cart" = .ok () ∧
     validateOrderStatusTransition "delivered" "processing" = .ok () ∧
     validateOrderStatusTransition "delivered" "shipped" = .ok () ∧
     validateOrderStatusTransition "delivered" "delivered" = .ok ()) :=
  ⟨⟨rfl, rfl, rfl⟩,
   ⟨rfl, rfl, rfl, rfl, rfl, rfl, rfl, rfl, rfl⟩,
   ⟨rfl, rfl, rfl, rfl⟩⟩

/-- C7 (code bug): an order already in "processing" status, PATCHed to
"shipped" with no payment field in the body, is rejected with
400 "Can not update payment information after an order has been
placed." — even though the middleware passes the request and the
processing → shipped transition is allowed.  The controller defaults the
absent body field to the empty blob, so the "a payment was provided"
conjunct of its abort test is constantly true and every update of a
non-cart order aborts. -/
theorem patch_shipped_without_payment_rejected :
    patchOrder processingStore 4 (some "shipped") none =
      .err 400 "Can not update payment information after an order has been placed." ∧
    validateOrderUpdate (some "shipped") none = none ∧
    validateOrderStatusTransition "processing" "shipped" = .ok () :=
  ⟨rfl, rfl, rfl⟩

/-- C9 counterexample: a cart-item request with quantity 0 is rejected
as malformed by the caller-side validation (JavaScript `!quantity` is
true for 0), so it never reaches the domain transaction — refuting the
claim that 0 passes caller validation as "no items". -/
theorem validateOrderItem_rejects_zero :
    validateOrderItem (some "ProductA") (some 0) =
      some "Quantity must be a positive integer." := rfl

/-- C9 amended: the caller-side validation accepts a cart-item body
exactly when the product name is non-empty and the quantity is strictly
positive — 0 is rejected as malformed; only the domain transaction's own
check is a non-negativity check, so a quantity of 0 would not trip the
transaction's "Quantity must be a non-negative integer." abort. -/
theorem validateOrderItem_positive_only :
    (∀ (name : String) (q : Int),
        validateOrderItem (some name) (some q) = none ↔ name ≠ "" ∧ 0 < q) ∧
    (∀ (s : Store) (cid : Nat) (pname : String) (q now : Int), 0 ≤ q →
        createOrUpdateCartItem s cid pname q now ≠
          .error "Quantity must be a non-negative integer.") := by
  constructor
  · intro name q
    unfold validateOrderItem
    by_cases hn : name = ""
    · subst hn
      simp
    · have hnb : (name == "") = false := by simpa using hn
      simp only [hnb, Bool.false_eq_true, if_false]
      rcases lt_or_le 0 q with hq | hq
      · rw [if_neg (by omega)]
        simp [hn, hq]
      · rw [if_pos hq]
        simp [hn]
        omega
  · intro s cid pname q now hq h
    simp only [createOrUpdateCartItem] at h
    repeat' split at h
    all_goals (try simp_all)
    all_goals omega

theorem checkoutRaw_cases (s : Store) (oid : Nat) (st : String) (pay : Option Payment) :
    (checkoutRaw s oid st pay).1 = s ∨ (checkoutRaw s oid st pay).2 = none := by
  rcases hE : checkoutRaw s oid st pay with ⟨s1, e1⟩
  unfold checkoutRaw at hE
  repeat' split at hE
  all_goals (injection hE with h1 h2; subst h1; subst h2; simp)

/-- C2: every aborting run of the checkout transaction leaves the store
exactly as it found it — in the statement-by-statement execution
`checkoutRaw` every abort happens before the first write, so on failure
of any precondition (wrong target status, illegal transition, empty
order, missing address, missing payment, stock shortfall, or a missing
document) no product's stock changes and the order — in particular a
cart order — keeps its status. -/
theorem checkout_abort_no_partial_effects (s : Store) (oid : Nat) (st : String)
    (pay : Option Payment) (e : String)
    (h : (checkoutRaw s oid st pay).2 = some e) :
    (checkoutRaw s oid st pay).1 = s ∧
    (∀ pid, (checkoutRaw s oid st pay).1.stockOf pid = s.stockOf pid) ∧
    (checkoutRaw s oid st pay).1.orderById oid = s.orderById oid := by
  have hs : (checkoutRaw s oid st pay).1 = s := by
    rcases checkoutRaw_cases s oid st pay with hc | hc
    · exact hc
    · rw [hc] at h
      cases h
  exact ⟨hs, fun pid => by rw [hs], by rw [hs]⟩

/-- Witness for C2 at a concrete input: checking out the empty cart of
`emptyCartStore` aborts on the no-items precondition and leaves the
store untouched. -/
theorem checkout_abort_no_partial_effects_witness :
    (checkoutRaw emptyCartStore 4 "processing" none).1 = emptyCartStore ∧
    (∀ pid, (checkoutRaw emptyCartStore 4 "processing" none).1.stockOf pid =
      emptyCartStore.stockOf pid) ∧
    (checkoutRaw emptyCartStore 4 "processing" none).1.orderById 4 =
      emptyCartStore.orderById 4 :=
  checkout_abort_no_partial_effects emptyCartStore 4 "processing" none
    "Order must have at least one item." rfl

/-- C8: the computed `Order.total` equals the sum, over the order's line
items, of current product price times quantity (`itemContribution`,
which is literally price × quantity whenever the item's product
resolves), recomputed from the store at read time; and on the concrete
cart with 2 × ProductA (price 500) and 1 × ProductB (price 1000) the
total is 2000. -/
theorem orderTotal_eq_sum_price_times_qty :
    (∀ (s : Store) (oid : Nat),
        s.orderTotal oid = ((s.itemsOf oid).map (itemContribution s)).sum) ∧
    demoStore.orderTotal 4 = 2000 := by
  constructor
  · intro s oid
    unfold Store.orderTotal
    rw [foldl_orderTotal_eq]
    simp
  · rfl

/-- C10: the computed `Order.total` is total over every store state: it
equals the sum over only those line items whose product reference
resolves, so an item whose product was deleted contributes nothing, and
— the embedding being a total function — reading a total never fails. -/
theorem orderTotal_skips_missing_products (s : Store) (oid : Nat) :
    s.orderTotal oid =
      (((s.itemsOf oid).filter (fun it => (s.productById it.product).isSome)).map
        (itemContribution s)).sum := by
  unfold Store.orderTotal
  rw [foldl_orderTotal_eq, sum_itemContribution_filter]
  simp

theorem firstStockViolation_messages (s : Store) (items : List OrderItem) (e : String)
    (h : firstStockViolation s items = some e) :
    e = "document_not_found" ∨
    e = "One of the selected products does not have the requested quantity in stock." := by
  induction items with
  | nil => cases h
  | cons a l ih =>
    unfold firstStockViolation at h
    cases hv : stockViolation s a with
    | some e2 =>
      rw [hv] at h
      injection h with h
      subst h
      unfold stockViolation at hv
      cases hp : s.productById a.product with
      | none =>
        rw [hp] at hv
        injection hv with hv
        exact Or.inl hv.symm
      | some p =>
        simp only [hp] at hv
        by_cases hlt : p.stock < a.quantity
        · rw [if_pos hlt] at hv
          injection hv with hv
          exact Or.inr hv.symm
        · rw [if_neg hlt] at hv
          cases hv
    | none =>
      rw [hv] at h
      exact ih h

/-- C6: checkout aborts with "Order must have a valid payment method."
exactly when the order exists, the target status is "processing", the
status transition is legal, the order has items, its customer has an
address, AND the order has no stored payment and no payment argument was
supplied; in particular whenever a stored or argument payment is
available the precondition passes and this error is never produced. -/
theorem checkout_missing_payment_iff (s : Store) (oid : Nat) (st : String) (pay : Option Payment) :
    (checkoutRaw s oid st pay).2 = some "Order must have a valid payment method." ↔
      (∃ order, s.orderById oid = some order ∧
        st = "processing" ∧
        validateOrderStatusTransition order.status "processing" = .ok () ∧
        (s.itemsOf oid).isEmpty = false ∧
        (∃ c, s.customerById order.customer = some c ∧ c.address.isSome = true) ∧
        order.payment = none ∧ pay = none) := by
  constructor
  · intro h
    unfold checkoutRaw at h
    cases ho : s.orderById oid with
    | none => simp only [ho] at h; simp at h
    | some order =>
      simp only [ho] at h
      by_cases hst : st = "processing"
      · subst hst
        rw [if_neg (by simp)] at h
        cases hv : validateOrderStatusTransition order.status "processing" with
        | error e =>
          simp only [hv] at h
          have he : e = "Invalid status transition." := by
            unfold validateOrderStatusTransition at hv
            repeat' split at hv
            all_goals first
              | (injection hv with hv2; exact hv2.symm)
              | cases hv
          subst he
          simp at h
        | ok u =>
          cases u
          simp only [hv] at h
          cases hne : (s.itemsOf oid).isEmpty with
          | true => simp only [hne, if_true] at h; simp at h
          | false =>
            simp only [hne, Bool.false_eq_true, if_false] at h
            cases hc : s.customerById order.customer with
            | none => simp only [hc] at h; simp at h
            | some c =>
              simp only [hc] at h
              cases hA : c.address with
              | none => simp only [hA, Option.isNone_none, if_true] at h; simp at h
              | some a0 =>
                simp only [hA, Option.isNone_some, Bool.false_eq_true, if_false] at h
                cases hpo : order.payment with
                | some pstored =>
                  simp only [hpo, Option.isNone_some, Bool.false_and, Bool.false_eq_true, if_false] at h
                  cases hfv : firstStockViolation s (s.itemsOf oid) with
                  | some e =>
                    simp only [hfv] at h
                    simp at h
                    rcases firstStockViolation_messages s _ e hfv with rfl | rfl <;> simp at h
                  | none =>
                    simp only [hfv] at h
                    cases pay <;> simp at h
                | none =>
                  cases hpay : pay with
                  | none =>
                    exact ⟨order, rfl, rfl, hv, rfl, ⟨c, hc, by simp [hA]⟩, hpo, rfl⟩
                  | some p0 =>
                    simp only [hpo, hpay, Option.isNone_some, Option.isNone_none, Bool.and_false,
                      Bool.false_eq_true, if_false] at h
                    cases hfv : firstStockViolation s (s.itemsOf oid) with
                    | some e =>
                      simp only [hfv] at h
                      simp at h
                      rcases firstStockViolation_messages s _ e hfv with rfl | rfl <;> simp at h
                    | none =>
                      simp only [hfv] at h
                      simp at h
      · rw [if_pos (by simpa using hst)] at h
        simp at h
  · rintro ⟨order, ho, rfl, hv, hne, ⟨c, hc, ha⟩, hp, rfl⟩
    have ha2 : c.address.isNone = false := by
      cases hA : c.address
      · rw [hA] at ha; cases ha
      · rfl
    unfold checkoutRaw
    simp only [ho, hv, hne, hc, hp, ha2, Option.isNone_none, Bool.true_and, Bool.false_eq_true,
      if_false, if_true, bne_self_eq_false]

theorem cartOrdersOf_length_eq_count (s : Store) (cid : Nat) :
    (s.cartOrdersOf cid).length = s.cartCustomers.count cid := by
  unfold Store.cartOrdersOf Store.cartCustomers
  induction s.orders with
  | nil => rfl
  | cons e l ih =>
    by_cases hst : e.2.status == "cart" <;> by_cases hcu : e.2.customer == cid <;>
      simp_all [List.filter_cons, List.count_cons]

theorem oneOrderInCart_of_nodup (s : Store) (h : s.cartCustomers.Nodup) :
    oneOrderInCart s := by
  intro cid
  rw [cartOrdersOf_length_eq_count]
  exact List.nodup_iff_count_le_one.mp h cid

theorem oneOrderInCart_congr (s t : Store) (h : s.orders = t.orders)
    (hs : oneOrderInCart s) : oneOrderInCart t := by
  intro cid
  have h2 := hs cid
  unfold Store.cartOrdersOf at *
  rw [← h]
  exact h2

theorem oneOrderInCart_createOrder_cart (s : Store) (id : Nat) (o : Order)
    (hs : oneOrderInCart s) (hnone : s.cartOf id = none) (hcust : o.customer = id) :
    oneOrderInCart (s.createOrder o).1 := by
  intro cid
  have hold := hs cid
  unfold Store.cartOrdersOf Store.createOrder at *
  simp only [List.filter_append, List.length_append]
  have hsingle : (List.filter (fun e => e.2.customer == cid && e.2.status == "cart")
      [(s.nextId, o)]).length ≤ 1 := by
    simp only [List.filter_cons, List.filter_nil]
    split <;> simp
  by_cases hp : (o.customer == cid && o.status == "cart") = true
  · have h2 : o.customer = cid := by
      have h1 : (o.customer == cid) = true := ((Bool.and_eq_true _ _).mp hp).1
      simpa using h1
    have hcid : cid = id := by rw [h2] at hcust; exact hcust
    subst hcid
    have hfind : s.orders.find? (fun e => e.2.customer == cid && e.2.status == "cart") = none := by
      unfold Store.cartOf at hnone
      exact Option.map_eq_none'.mp hnone
    have hfe : s.orders.filter (fun e => e.2.customer == cid && e.2.status == "cart") = [] :=
      List.filter_eq_nil_iff.mpr (fun x hx => by
        have hnx := List.find?_eq_none.mp hfind x hx
        simpa using hnx)
    rw [hfe]
    simpa using hsingle
  · have hpf : (o.customer == cid && o.status == "cart") = false := by simpa using hp
    have hz : (List.filter (fun e => e.2.customer == cid && e.2.status == "cart")
        [(s.nextId, o)]).length = 0 := by
      simp [List.filter_cons, hpf]
    omega

theorem orders_decrementStock (items : List OrderItem) (s : Store) :
    (decrementStock s items).orders = s.orders := by
  induction items generalizing s with
  | nil => rfl
  | cons it rest ih =>
    have hstep : decrementStock s (it :: rest) =
        decrementStock
          (match s.productById it.product with
           | some p => s.updateProductStock it.product (p.stock - it.quantity)
           | none => s) rest := rfl
    rw [hstep]
    cases hp : s.productById it.product with
    | none => rw [ih]
    | some p => rw [ih]; rfl

theorem oneOrderInCart_updateOrderDoc_processing (s : Store) (oid : Nat)
    (f : Order → Order) (hf : ∀ o, (f o).status = "processing")
    (hs : oneOrderInCart s) : oneOrderInCart (s.updateOrderDoc oid f) := by
  intro cid
  have hold := hs cid
  unfold Store.cartOrdersOf Store.updateOrderDoc at *
  rw [← List.countP_eq_length_filter] at hold ⊢
  rw [List.countP_map]
  refine le_trans (List.countP_mono_left ?_) hold
  intro e he hp
  by_cases hk : (e.1 == oid) = true
  · exfalso
    simp only [Function.comp, hk, if_true, hf] at hp
    simp at hp
  · simpa [Function.comp, hk] using hp

/-- C5: the one-cart-per-customer invariant.  Starting from a store in
which every customer owns at most one "cart"-status order, every domain
transaction preserves it: `getOrCreateCart` and `createOrUpdateCartItem`
create a cart order only when the customer's computed `cart` field is
null, and `checkout` only moves an order out of "cart" status. -/
theorem domain_transactions_preserve_one_cart (s : Store) (hs : oneOrderInCart s) :
    (∀ id now s' r, getOrCreateCart s id now = .ok (s', r) → oneOrderInCart s') ∧
    (∀ cid pname q now s' r, createOrUpdateCartItem s cid pname q now = .ok (s', r) →
      oneOrderInCart s') ∧
    (∀ oid st pay s', checkout s oid st pay = .ok s' → oneOrderInCart s') := by
  refine ⟨?_, ?_, ?_⟩
  · intro id now s' r h
    unfold getOrCreateCart at h
    cases hc : s.customerById id with
    | none => simp only [hc] at h; simp at h
    | some c =>
      simp only [hc] at h
      cases hcart : s.cartOf id with
      | none =>
        simp only [hcart] at h
        injection h with h2
        cases h2
        exact oneOrderInCart_createOrder_cart s id _ hs hcart rfl
      | some oid0 =>
        simp only [hcart] at h
        injection h with h2
        cases h2
        exact hs
  · intro cid pname q now s' r h
    unfold createOrUpdateCartItem at h
    cases hc : s.customerById cid with
    | none => simp only [hc] at h; simp at h
    | some c =>
      simp only [hc] at h
      cases hp : s.productByName pname with
      | none => simp only [hp] at h; simp at h
      | some pr =>
        simp only [hp] at h
        by_cases hq : q < 0
        · rw [if_pos hq] at h; simp at h
        · rw [if_neg hq] at h
          cases hcart : s.cartOf cid with
          | some cartId0 =>
            simp only [hcart, Option.isNone_some, Bool.false_eq_true, if_false] at h
            by_cases hstock : pr.2.stock < q
            · rw [if_pos hstock] at h; simp at h
            · rw [if_neg hstock] at h
              cases hitem : s.itemByOrderAndProduct cartId0 pr.1 with
              | none =>
                simp only [hitem] at h
                injection h with h2
                cases h2
                exact hs
              | some ie =>
                simp only [hitem] at h
                injection h with h2
                cases h2
                exact hs
          | none =>
            simp only [hcart, Option.isNone_none, if_true] at h
            by_cases hstock : pr.2.stock < q
            · rw [if_pos hstock] at h; simp at h
            · rw [if_neg hstock] at h
              have hs1 : oneOrderInCart (s.createOrder
                  { customer := cid, status := "cart", createdAt := now, payment := some [] }).1 :=
                oneOrderInCart_createOrder_cart s cid _ hs hcart rfl
              cases hcart2 : (s.createOrder
                  { customer := cid, status := "cart", createdAt := now, payment := some [] }).1.cartOf cid with
              | none => simp only [hcart2] at h; simp at h
              | some cartId1 =>
                simp only [hcart2] at h
                cases hitem : (s.createOrder
                    { customer := cid, status := "cart", createdAt := now, payment := some [] }).1.itemByOrderAndProduct cartId1 pr.1 with
                | none =>
                  simp only [hitem] at h
                  injection h with h2
                  cases h2
                  exact hs1
                | some ie =>
                  simp only [hitem] at h
                  injection h with h2
                  cases h2
                  exact hs1
  · intro oid st pay s' h
    unfold checkout at h
    cases hE : checkoutRaw s oid st pay with
    | mk s1 e1 =>
      rw [hE] at h
      cases e1 with
      | some e => simp at h
      | none =>
        injection h with h
        subst h
        unfold checkoutRaw at hE
        repeat' split at hE
        all_goals injection hE with g1 g2
        all_goals try cases g2
        all_goals subst g1
        all_goals
          refine oneOrderInCart_updateOrderDoc_processing _ oid _ (fun o => rfl)
            (oneOrderInCart_congr s _ (orders_decrementStock _ s).symm hs)


/-- Witness for C5 at a concrete input: the invariant holds on
`demoStore` (checked by `decide` through the duplicate-free phrasing)
and is preserved by `getOrCreateCart`, which returns the existing cart
order 4. -/
theorem domain_transactions_preserve_one_cart_witness : oneOrderInCart demoStore :=
  (domain_transactions_preserve_one_cart demoStore
      (oneOrderInCart_of_nodup demoStore (by decide))).1 1 5 demoStore 4 rfl

theorem productById_updateProductStock (s : Store) (pid0 : Nat) (v : Int) (q : Nat) :
    (s.updateProductStock pid0 v).productById q =
      (s.productById q).map (fun p => if q == pid0 then { p with stock := v } else p) := by
  unfold Store.productById Store.updateProductStock
  simp only []
  rw [List.find?_map]
  have hcomp : ((fun e : Nat × Product => e.1 == q) ∘
      (fun e : Nat × Product => if e.1 == pid0 then (e.1, { e.2 with stock := v }) else e)) =
      (fun e : Nat × Product => e.1 == q) := by
    funext e
    by_cases hk : (e.1 == pid0) = true <;> simp [Function.comp, hk]
  rw [hcomp]
  cases hf : s.products.find? (fun e => e.1 == q) with
  | none => simp
  | some e0 =>
    have hq2 : e0.1 = q := by simpa using List.find?_some hf
    simp only [Option.map_some']
    by_cases hk : (e0.1 == pid0) = true
    · have : (q == pid0) = true := by rw [← hq2]; exact hk
      simp [hk, this]
    · have hkf : (e0.1 == pid0) = false := by simpa using hk
      have : (q == pid0) = false := by rw [← hq2]; exact hkf
      simp [hkf, this]

theorem productById_isSome_updateProductStock (s : Store) (pid0 : Nat) (v : Int) (q : Nat) :
    ((s.updateProductStock pid0 v).productById q).isSome = ((s.productById q)).isSome := by
  rw [productById_updateProductStock]
  cases s.productById q <;> simp

theorem stockOf_updateProductStock (s : Store) (pid0 : Nat) (v : Int) (q : Nat) :
    (s.updateProductStock pid0 v).stockOf q =
      (s.stockOf q).map (fun x => if q == pid0 then v else x) := by
  unfold Store.stockOf
  rw [productById_updateProductStock]
  cases s.productById q with
  | none => simp
  | some p =>
    simp only [Option.map_some']
    by_cases hk : (q == pid0) = true
    · simp [hk]
    · have hkf : (q == pid0) = false := by simpa using hk
      simp [hkf]

theorem orderedQty_cons (it : OrderItem) (rest : List OrderItem) (pid : Nat) :
    orderedQty (it :: rest) pid =
      (if it.product == pid then it.quantity else 0) + orderedQty rest pid := by
  unfold orderedQty
  by_cases hk : (it.product == pid) = true
  · simp [List.filter_cons, hk]
  · have hkf : (it.product == pid) = false := by simpa using hk
    simp [List.filter_cons, hkf]

theorem stockOf_decrementStock (items : List OrderItem) (s : Store) (pid : Nat)
    (h : ∀ it ∈ items, (s.productById it.product).isSome = true) :
    (decrementStock s items).stockOf pid =
      (s.stockOf pid).map (fun x => x - orderedQty items pid) := by
  induction items generalizing s with
  | nil =>
    simp only [decrementStock, List.foldl_nil, orderedQty, List.filter_nil, List.map_nil,
      List.sum_nil]
    cases s.stockOf pid <;> simp
  | cons it rest ih =>
    obtain ⟨p, hp⟩ := Option.isSome_iff_exists.mp (h it (List.mem_cons_self it rest))
    have hstep : decrementStock s (it :: rest) =
        decrementStock (s.updateProductStock it.product (p.stock - it.quantity)) rest := by
      have : decrementStock s (it :: rest) =
          decrementStock
            (match s.productById it.product with
             | some p2 => s.updateProductStock it.product (p2.stock - it.quantity)
             | none => s) rest := rfl
      rw [this, hp]
    rw [hstep]
    rw [ih _ (fun x hx => by
      rw [productById_isSome_updateProductStock]
      exact h x (List.mem_cons_of_mem it hx))]
    rw [stockOf_updateProductStock, orderedQty_cons]
    cases hs0 : s.stockOf pid with
    | none => simp
    | some x =>
      simp only [Option.map_some']
      by_cases hpp : (pid == it.product) = true
      · have hpe : pid = it.product := by simpa using hpp
        have hpp2 : (it.product == pid) = true := by rw [hpe]; simp
        have hx : x = p.stock := by
          unfold Store.stockOf at hs0
          rw [← hpe] at hp
          rw [hp] at hs0
          simpa using hs0.symm
        subst hx
        simp only [hpp, hpp2, if_true]
        congr 1
        omega
      · have hppf : (pid == it.product) = false := by simpa using hpp
        have hpp2 : (it.product == pid) = false := by
          have : ¬ it.product = pid := by
            intro he
            rw [he] at hppf
            simp at hppf
          simpa using this
        simp [hppf, hpp2]

theorem firstStockViolation_none_isSome (s : Store) (items : List OrderItem)
    (h : firstStockViolation s items = none) :
    ∀ it ∈ items, (s.productById it.product).isSome = true := by
  induction items with
  | nil => intro it hit; cases hit
  | cons a l ih =>
    unfold firstStockViolation at h
    cases hv : stockViolation s a with
    | some e => rw [hv] at h; cases h
    | none =>
      rw [hv] at h
      intro it hit
      rcases List.mem_cons.mp hit with rfl | hmem
      · unfold stockViolation at hv
        cases hp : s.productById it.product with
        | none => rw [hp] at hv; cases hv
        | some p => simp [hp]
      · exact ih h it hmem

theorem stockOf_updateOrderDoc (s : Store) (oid : Nat) (f : Order → Order) (pid : Nat) :
    (s.updateOrderDoc oid f).stockOf pid = s.stockOf pid := rfl

/-- C3: when a checkout commits, each product's stored stock is reduced
by exactly the total quantity of that product across the order's line
items (`orderedQty`), so a product referenced by no line item of the
order — for which that total is 0 — keeps its stock unchanged. -/
theorem checkout_decrements_stock (s : Store) (oid : Nat) (st : String)
    (pay : Option Payment) (s2 : Store) (h : checkout s oid st pay = .ok s2) (pid : Nat) :
    s2.stockOf pid = (s.stockOf pid).map (fun x => x - orderedQty (s.itemsOf oid) pid) := by
  unfold checkout at h
  cases hE : checkoutRaw s oid st pay with
  | mk s1 e1 =>
    rw [hE] at h
    cases e1 with
    | some e => simp at h
    | none =>
      injection h with h
      subst h
      unfold checkoutRaw at hE
      repeat' split at hE
      all_goals injection hE with g1 g2
      all_goals try cases g2
      all_goals subst g1
      all_goals rw [stockOf_updateOrderDoc]
      all_goals
        refine stockOf_decrementStock (s.itemsOf oid) s pid
          (firstStockViolation_none_isSome s (s.itemsOf oid) ?_)
      all_goals assumption

/-- Witness for C3 at a concrete input: checking out the demo cart
(2 × ProductA, 1 × ProductB) succeeds and ProductA's stock drops from 10
by the ordered quantity 2. -/
theorem checkout_decrements_stock_witness :
    demoStoreCheckedOut.stockOf 2 =
      (demoStore.stockOf 2).map (fun x => x - orderedQty (demoStore.itemsOf 4) 2) :=
  checkout_decrements_stock demoStore 4 "processing" (some [("method", "card")])
    demoStoreCheckedOut rfl 2

theorem list_map_eq_self {α : Type} {f : α → α} {l : List α} (h : ∀ a ∈ l, f a = a) :
    l.map f = l := by
  induction l with
  | nil => rfl
  | cons a t ih =>
    rw [List.map_cons, h a (List.mem_cons_self a t),
      ih (fun x hx => h x (List.mem_cons_of_mem a hx))]

theorem nat_beq_eq_false_of_lt {a b : Nat} (h : a < b) : (a == b) = false := by
  simpa using Nat.ne_of_lt h

theorem filter_pair_unique (l : List (Nat × OrderItem)) (oid pid : Nat) (a : Nat × OrderItem)
    (hnd : (l.map (fun e => (e.2.order, e.2.product))).Nodup)
    (hf : l.find? (fun e => e.2.order == oid && e.2.product == pid) = some a) :
    l.filter (fun e => e.2.order == oid && e.2.product == pid) = [a] := by
  obtain ⟨hpa, as, bs, hsplit, has⟩ := List.find?_eq_some.mp hf
  subst hsplit
  have h1 : as.filter (fun e => e.2.order == oid && e.2.product == pid) = [] := by
    rw [List.filter_eq_nil_iff]
    intro x hx hpx
    have hb := has x hx
    rw [hpx] at hb
    simp at hb
  have h2 : bs.filter (fun e => e.2.order == oid && e.2.product == pid) = [] := by
    rw [List.filter_eq_nil_iff]
    intro x hx hpx
    rw [List.map_append, List.map_cons] at hnd
    have hnd2 := hnd.of_append_right
    have hnotin := (List.nodup_cons.mp hnd2).1
    have hxe : (x.2.order, x.2.product) = (oid, pid) := by
      simp only [Bool.and_eq_true, beq_iff_eq] at hpx
      rw [hpx.1, hpx.2]
    have hae : (a.2.order, a.2.product) = (oid, pid) := by
      simp only [Bool.and_eq_true, beq_iff_eq] at hpa
      rw [hpa.1, hpa.2]
    exact hnotin (hae ▸ hxe ▸ List.mem_map_of_mem (fun e => (e.2.order, e.2.product)) hx)
  rw [List.filter_append, List.filter_cons, h1]
  simp [hpa, h2]

/-- C4: cart-item reconciliation has set semantics.  In a well-formed
store, a successful `createOrUpdateCartItem` run is idempotent: running
it again with the same product and quantity returns the same store and
the same cart, changing nothing, and the cart holds exactly one line
item for that product, carrying exactly the requested quantity. -/
theorem createOrUpdateCartItem_idempotent (s : Store) (cid : Nat) (pname : String)
    (q now now2 : Int) (s1 : Store) (oid : Nat)
    (hwf : s.WF)
    (h : createOrUpdateCartItem s cid pname q now = .ok (s1, oid)) :
    createOrUpdateCartItem s1 cid pname q now2 = .ok (s1, oid) ∧
    ∃ pid prod, s1.productByName pname = some (pid, prod) ∧
      ((s1.orderItems.filter (fun e => e.2.order == oid && e.2.product == pid)).map
        (fun e => e.2.quantity)) = [q] := by
  obtain ⟨hwf1, hwf2, hwf3, hwf4⟩ := hwf
  unfold createOrUpdateCartItem at h
  cases hc : s.customerById cid with
  | none => simp only [hc] at h; simp at h
  | some c =>
    simp only [hc] at h
    cases hpn : s.productByName pname with
    | none => simp only [hpn] at h; simp at h
    | some pr =>
      simp only [hpn] at h
      by_cases hq0 : q < 0
      · rw [if_pos hq0] at h; simp at h
      · rw [if_neg hq0] at h
        cases hcart : s.cartOf cid with
        | some cart0 =>
          simp only [hcart, Option.isNone_some, Bool.false_eq_true, if_false] at h
          by_cases hstock : pr.2.stock < q
          · rw [if_pos hstock] at h; simp at h
          · rw [if_neg hstock] at h
            unfold Store.itemByOrderAndProduct at h
            cases hitem : s.orderItems.find?
                (fun e => e.2.order == cart0 && e.2.product == pr.1) with
            | some ie =>
              simp only [hitem] at h
              injection h with h2
              cases h2
              have hco : ((fun e : Nat × OrderItem => e.2.order == oid && e.2.product == pr.1) ∘
                  (fun e => if e.1 == ie.1 then (e.1, { e.2 with quantity := q }) else e)) =
                  (fun e : Nat × OrderItem => e.2.order == oid && e.2.product == pr.1) := by
                funext e
                by_cases hk : (e.1 == ie.1) = true <;> simp [Function.comp, hk]
              have hfind1 : (s.updateItemQuantity ie.1 q).itemByOrderAndProduct oid pr.1 =
                  some (ie.1, { ie.2 with quantity := q }) := by
                unfold Store.itemByOrderAndProduct Store.updateItemQuantity
                simp only []
                rw [List.find?_map, hco, hitem]
                simp
              have hupd : (s.updateItemQuantity ie.1 q).updateItemQuantity ie.1 q =
                  s.updateItemQuantity ie.1 q := by
                unfold Store.updateItemQuantity
                simp only [List.map_map]
                congr 1
                apply List.map_congr_left
                intro e he
                by_cases hk : (e.1 == ie.1) = true <;> simp [Function.comp, hk]
              constructor
              · unfold createOrUpdateCartItem
                have hc1 : (s.updateItemQuantity ie.1 q).customerById cid = some c := hc
                have hpn1 : (s.updateItemQuantity ie.1 q).productByName pname = some pr := hpn
                have hcart1 : (s.updateItemQuantity ie.1 q).cartOf cid = some oid := hcart
                simp only [hc1, hpn1, hcart1, hfind1, Option.isNone_some, Bool.false_eq_true,
                  if_false, if_neg hq0, if_neg hstock]
                rw [hupd]
              · refine ⟨pr.1, pr.2, hpn, ?_⟩
                have hfilter : s.orderItems.filter
                    (fun e => e.2.order == oid && e.2.product == pr.1) = [ie] :=
                  filter_pair_unique s.orderItems oid pr.1 ie hwf4 hitem
                show ((s.orderItems.map
                    (fun e => if e.1 == ie.1 then (e.1, { e.2 with quantity := q }) else e)).filter
                    (fun e => e.2.order == oid && e.2.product == pr.1)).map
                    (fun e => e.2.quantity) = [q]
                rw [List.filter_map, hco, hfilter]
                simp
            | none =>
              simp only [hitem] at h
              injection h with h2
              cases h2
              have hpnew : ((fun e : Nat × OrderItem =>
                  e.2.order == oid && e.2.product == pr.1)
                  (s.nextId, OrderItem.mk oid pr.1 q)) = true := by simp
              have hfind1 : ((s.createOrderItem (OrderItem.mk oid pr.1 q)).1).itemByOrderAndProduct
                  oid pr.1 = some (s.nextId, OrderItem.mk oid pr.1 q) := by
                unfold Store.itemByOrderAndProduct Store.createOrderItem
                simp only []
                rw [List.find?_append, hitem]
                simp
              have hupd : ((s.createOrderItem (OrderItem.mk oid pr.1 q)).1).updateItemQuantity
                  s.nextId q = (s.createOrderItem (OrderItem.mk oid pr.1 q)).1 := by
                unfold Store.updateItemQuantity Store.createOrderItem
                simp only []
                congr 1
                rw [List.map_append]
                congr 1
                · exact list_map_eq_self (fun e he => by
                    simp [nat_beq_eq_false_of_lt (hwf2 e he)])
                · simp
              constructor
              · unfold createOrUpdateCartItem
                have hc1 : ((s.createOrderItem (OrderItem.mk oid pr.1 q)).1).customerById cid =
                    some c := hc
                have hpn1 : ((s.createOrderItem (OrderItem.mk oid pr.1 q)).1).productByName pname =
                    some pr := hpn
                have hcart1 : ((s.createOrderItem (OrderItem.mk oid pr.1 q)).1).cartOf cid =
                    some oid := hcart
                simp only [hc1, hpn1, hcart1, hfind1, Option.isNone_some, Bool.false_eq_true,
                  if_false, if_neg hq0, if_neg hstock]
                rw [hupd]
              · refine ⟨pr.1, pr.2, hpn, ?_⟩
                show (((s.orderItems ++ [(s.nextId, OrderItem.mk oid pr.1 q)]).filter
                    (fun e => e.2.order == oid && e.2.product == pr.1)).map
                    (fun e => e.2.quantity)) = [q]
                have h0 : s.orderItems.filter
                    (fun e => e.2.order == oid && e.2.product == pr.1) = [] := by
                  rw [List.filter_eq_nil_iff]
                  intro x hx hpx
                  have hb := List.find?_eq_none.mp hitem x hx
                  exact hb hpx
                rw [List.filter_append, h0]
                simp
        | none =>
          simp only [hcart, Option.isNone_none, if_true] at h
          by_cases hstock : pr.2.stock < q
          · rw [if_pos hstock] at h; simp at h
          · rw [if_neg hstock] at h
            have hfe : s.orders.find? (fun e => e.2.customer == cid && e.2.status == "cart") =
                none := by
              unfold Store.cartOf at hcart
              exact Option.map_eq_none'.mp hcart
            have hcart2 : ((s.createOrder (Order.mk cid "cart" now (some []))).1).cartOf cid =
                some s.nextId := by
              unfold Store.cartOf Store.createOrder
              simp only []
              rw [List.find?_append, hfe]
              simp
            simp only [hcart2] at h
            have hitem0 : ((s.createOrder (Order.mk cid "cart" now (some []))).1).orderItems.find?
                (fun e => e.2.order == s.nextId && e.2.product == pr.1) = none := by
              show s.orderItems.find?
                (fun e => e.2.order == s.nextId && e.2.product == pr.1) = none
              rw [List.find?_eq_none]
              intro x hx
              simp [nat_beq_eq_false_of_lt (hwf3 x hx)]
            unfold Store.itemByOrderAndProduct at h
            simp only [hitem0] at h
            injection h with h2
            cases h2
            have hfind1 : (((s.createOrder (Order.mk cid "cart" now (some []))).1.createOrderItem
                (OrderItem.mk s.nextId pr.1 q)).1).itemByOrderAndProduct s.nextId pr.1 =
                some (s.nextId + 1, OrderItem.mk s.nextId pr.1 q) := by
              unfold Store.itemByOrderAndProduct Store.createOrderItem Store.createOrder
              simp only []
              rw [List.find?_append]
              have hfn : s.orderItems.find?
                  (fun e => e.2.order == s.nextId && e.2.product == pr.1) = none := by
                rw [List.find?_eq_none]
                intro x hx
                simp [nat_beq_eq_false_of_lt (hwf3 x hx)]
              rw [hfn]
              simp
            have hupd : (((s.createOrder (Order.mk cid "cart" now (some []))).1.createOrderItem
                (OrderItem.mk s.nextId pr.1 q)).1).updateItemQuantity (s.nextId + 1) q =
                ((s.createOrder (Order.mk cid "cart" now (some []))).1.createOrderItem
                (OrderItem.mk s.nextId pr.1 q)).1 := by
              unfold Store.updateItemQuantity Store.createOrderItem Store.createOrder
              simp only []
              congr 1
              rw [List.map_append]
              congr 1
              · exact list_map_eq_self (fun e he => by
                  have hlt : e.1 < s.nextId + 1 := Nat.lt_succ_of_lt (hwf2 e he)
                  simp [nat_beq_eq_false_of_lt hlt])
              · simp
            constructor
            · unfold createOrUpdateCartItem
              have hc1 : (((s.createOrder (Order.mk cid "cart" now (some []))).1.createOrderItem
                  (OrderItem.mk s.nextId pr.1 q)).1).customerById cid = some c := hc
              have hpn1 : (((s.createOrder (Order.mk cid "cart" now (some []))).1.createOrderItem
                  (OrderItem.mk s.nextId pr.1 q)).1).productByName pname = some pr := hpn
              have hcart1 : (((s.createOrder (Order.mk cid "cart" now (some []))).1.createOrderItem
                  (OrderItem.mk s.nextId pr.1 q)).1).cartOf cid = some s.nextId := hcart2
              simp only [hc1, hpn1, hcart1, hfind1, Option.isNone_some, Bool.false_eq_true,
                if_false, if_neg hq0, if_neg hstock]
              rw [hupd]
            · refine ⟨pr.1, pr.2, hpn, ?_⟩
              show (((s.orderItems ++ [(s.nextId + 1, OrderItem.mk s.nextId pr.1 q)]).filter
                  (fun e => e.2.order == s.nextId && e.2.product == pr.1)).map
                  (fun e => e.2.quantity)) = [q]
              have h0 : s.orderItems.filter
                  (fun e => e.2.order == s.nextId && e.2.product == pr.1) = [] := by
                rw [List.filter_eq_nil_iff]
                intro x hx hpx
                have hb : (x.2.order == s.nextId) = false := nat_beq_eq_false_of_lt (hwf3 x hx)
                rw [Bool.and_eq_true] at hpx
                rw [hpx.1] at hb
                cases hb
              rw [List.filter_append, h0]
              simp

/-- Witness for C4 at a concrete input: re-running the demo store's own
cart content (2 × ProductA, already present with quantity 2) leaves the
store literally unchanged and the cart holds exactly one ProductA line
item of quantity 2. -/
theorem createOrUpdateCartItem_idempotent_witness :
    createOrUpdateCartItem demoStore 1 "ProductA" 2 1 = .ok (demoStore, 4) ∧
    ∃ pid prod, demoStore.productByName "ProductA" = some (pid, prod) ∧
      ((demoStore.orderItems.filter (fun e => e.2.order == 4 && e.2.product == pid)).map
        (fun e => e.2.quantity)) = [2] :=
  createOrUpdateCartItem_idempotent demoStore 1 "ProductA" 2 0 1 demoStore 4
    (by unfold Store.WF; decide) rfl

end ECommerce
